import Mathlib

/-!
Verification of the htpi-admin-portal server against its design specification.

The portal is a Flask + Socket.IO process (src/app.py) bridging browser
connections to a NATS message bus, with a Flask blueprint layer
(src/controllers) that talks to the bus through NATSService
(src/services/nats_service.py) and caches Organization rows locally
(src/models.py).

The embedding below translates the Python handlers into pure Lean functions.
Mutable process state (the connected_clients dict, the SQLAlchemy cache, the
Flask session) is passed explicitly; a handler returns the new state together
with the ordered list of observable effects (Socket.IO emits, room joins,
bus publishes).  Sources of nondeterminism in the Python code (random ids,
os.urandom tokens, the behaviour of the remote bus) are passed in as oracle
arguments.  Python exceptions that the handlers catch are represented by the
control paths the catch produces.
-/

namespace HtpiAdmin

/-- Lookup in an association list with String keys, as Python dict lookup. -/
def alookup {β : Type} (k : String) : List (String × β) → Option β
  | [] => none
  | (k', v) :: rest => if k = k' then some v else alookup k rest

/-- Insert or overwrite a key, as Python dict assignment.  An existing key
keeps its position (Python dicts preserve insertion order on update); a new
key is appended. -/
def aupdate {β : Type} (k : String) (v : β) : List (String × β) → List (String × β)
  | [] => [(k, v)]
  | (k', v') :: rest => if k = k' then (k, v) :: rest else (k', v') :: aupdate k v rest

/-- Delete a key, as the Python del statement on a dict. -/
def aremove {β : Type} (k : String) : List (String × β) → List (String × β)
  | [] => []
  | (k', v') :: rest => if k = k' then rest else (k', v') :: aremove k rest

/-- The user object stored by handle_login into connected_clients and sent in
the auth:login:response payload. -/
structure UserData where
  uid : String
  email : String
  name : String
  role : String
deriving DecidableEq, Repr

/-- Per-service status record used by the services:status:check aggregation:
the dict with keys id, status, message built in handle_service_status_check
and rewritten by finalize_health_status. -/
structure HCServiceStatus where
  hid : String
  status : String
  message : String
deriving DecidableEq, Repr

/-- One in-flight health-check aggregation: the value stored under
connected_clients[client_id]["health_checks"][requestId] in
handle_service_status_check (the timestamp field is irrelevant to the
properties and omitted). -/
structure HealthCheckEntry where
  status : List (String × HCServiceStatus)
  pending : Nat
deriving DecidableEq, Repr

/-- A tenant record as produced by the tenant_map lookup in
handle_tenant_switch. -/
structure TenantRec where
  tid : String
  name : String
deriving DecidableEq, Repr

/-- One value of the connected_clients dict (src/app.py).  handle_connect
creates it with only sid and authenticated = false; handle_login fills in
user, token and role; handle_tenant_switch sets current_tenant (whose outer
Option is key presence, the inner one the Python None for a cleared
selection); handle_service_status_check fills health_checks. -/
structure ClientRecord where
  sid : String
  authenticated : Bool
  user : Option UserData := none
  token : Option String := none
  role : Option String := none
  current_tenant : Option (Option TenantRec) := none
  health_checks : List (String × HealthCheckEntry) := []
deriving DecidableEq, Repr

/-- The connected_clients global: client sid mapped to its record. -/
def Clients : Type := List (String × ClientRecord)

instance : DecidableEq Clients := by
  unfold Clients
  infer_instance

/-- The global NATS client handle nc as the handlers in src/app.py observe
it: either None (never initialised) or an object with an is_connected flag. -/
structure NatsConn where
  is_connected : Bool
deriving DecidableEq, Repr

/-- The Python truthiness test if nc and nc.is_connected used by every
handler in src/app.py. -/
def ncConnected : Option NatsConn → Bool
  | none => false
  | some c => c.is_connected

/-- The mock patient object built by handle_create_patient in standalone
mode: id and patientId come from the random generator, the request data is
spread in, insuranceCount 0, createdBy from the client user. -/
structure PatientRec where
  pid : String
  patientId : String
  tenantId : String
  requestId : String
  createdBy : String
deriving DecidableEq, Repr

/-- Payloads of the Socket.IO emits that the verified properties inspect.
Payload fields mirror the Python dict literals; mock-data blobs that no
claim inspects are carried as their identifying fields only. -/
inductive Payload
  | err (message : String)
  | loginResp (success : Bool) (user : Option UserData) (token : Option String)
      (error : Option String)
  | resp (success : Bool) (error : Option String)
  | patientCreated (p : PatientRec)
  | patientCreateResp (success : Bool) (p : Option PatientRec) (error : Option String)
  | switchResp (success : Bool) (tenant : Option (Option TenantRec)) (error : Option String)
  | encounterCreated (eid encounterId tenantId createdBy : String)
  | encounterCreateResp (success : Bool) (eid : Option String) (error : Option String)
  | insuranceCreated (iid tenantId createdBy : String)
  | insuranceCreateResp (success : Bool) (iid : Option String) (error : Option String)
  | claimCreateResp (success : Bool) (claimMdId claimId pcn : Option String)
      (error : Option String)
  | statusUpdate (requestId : String) (statuses : List (String × HCServiceStatus))
deriving DecidableEq, Repr

/-- Observable side effects of one handler invocation, in program order.
emitCaller is flask_socketio emit(...) to the requesting connection;
emitRoom is socketio.emit(..., room=...); joinRoom is join_room(...);
natsPublish is an actual message handed to the bus (publish_to_nats in
src/app.py never reaches the bus in sync mode, so handlers never produce
it, but the constructor keeps the effect language able to express it). -/
inductive Effect
  | emitCaller (event : String) (payload : Payload)
  | emitRoom (event : String) (room : String) (payload : Payload)
  | joinRoom (room : String)
  | natsPublish (subject : String)
deriving DecidableEq, Repr

/-- The emit("error", ...) produced by the admin guard of every mutating
handler. -/
def adminErrorEffect : Effect :=
  Effect.emitCaller "error" (Payload.err "Admin access required")

/-- The guard condition shared by every admin Socket.IO handler:
not client or not client.get("authenticated") or client.get("role") != "admin". -/
def guardFails (clients : Clients) (cid : String) : Bool :=
  match alookup cid clients with
  | none => true
  | some c => !c.authenticated || c.role != some "admin"

/-- Request data of the admin:tenants:create event.  Fields beyond requestId
are spread into tenant_data and never re-inspected; name stands for them. -/
structure TenantCreateData where
  requestId : String
  name : String
deriving DecidableEq, Repr

/-- Handler of admin:tenants:create (src/app.py, handle_create_tenant).
After the admin guard and the tenant_data construction (which reads
client["user"], so a missing user raises KeyError into the except clause),
the body runs only under if nc and nc.is_connected; in sync mode result is
the hardcoded failure dict, so the failure response is emitted.  When nc is
absent or disconnected the if is skipped and the handler falls off the end
emitting nothing. -/
def handle_create_tenant (nc : Option NatsConn) (clients : Clients) (cid : String)
    (data : TenantCreateData) : Clients × List Effect :=
  match alookup cid clients with
  | none => (clients, [adminErrorEffect])
  | some client =>
    if !client.authenticated || client.role != some "admin" then
      (clients, [adminErrorEffect])
    else
      match client.user with
      | none =>
        -- client["user"]["id"] raises KeyError, caught by the except clause
        (clients, [Effect.emitCaller ("admin:tenants:create:response:" ++ data.requestId)
          (Payload.resp false (some "Failed to create tenant"))])
      | some _u =>
        if ncConnected nc then
          (clients, [Effect.emitCaller ("admin:tenants:create:response:" ++ data.requestId)
            (Payload.resp false (some "NATS not available in sync mode"))])
        else
          (clients, [])

/-- Request data of the admin:tenant:user:add event. -/
structure AddUserData where
  requestId : String
  tenantId : String
deriving DecidableEq, Repr

/-- Handler of admin:tenant:user:add (src/app.py, handle_add_user_to_tenant).
The body runs only under if nc and nc.is_connected; in sync mode result is
the hardcoded failure dict and the failure response is emitted.  When nc is
absent or disconnected nothing is emitted. -/
def handle_add_user_to_tenant (nc : Option NatsConn) (clients : Clients) (cid : String)
    (data : AddUserData) : Clients × List Effect :=
  match alookup cid clients with
  | none => (clients, [adminErrorEffect])
  | some client =>
    if !client.authenticated || client.role != some "admin" then
      (clients, [adminErrorEffect])
    else
      if ncConnected nc then
        (clients, [Effect.emitCaller ("admin:tenant:user:add:response:" ++ data.requestId)
          (Payload.resp false (some "NATS not available in sync mode"))])
      else
        (clients, [])

/-- Request data of the admin:tenant:claimmd:add event. -/
structure AddClaimMDData where
  requestId : String
  tenantId : String
deriving DecidableEq, Repr

/-- Handler of admin:tenant:claimmd:add (src/app.py, handle_add_claimmd).
Same shape as handle_add_user_to_tenant. -/
def handle_add_claimmd (nc : Option NatsConn) (clients : Clients) (cid : String)
    (data : AddClaimMDData) : Clients × List Effect :=
  match alookup cid clients with
  | none => (clients, [adminErrorEffect])
  | some client =>
    if !client.authenticated || client.role != some "admin" then
      (clients, [adminErrorEffect])
    else
      if ncConnected nc then
        (clients, [Effect.emitCaller ("admin:tenant:claimmd:add:response:" ++ data.requestId)
          (Payload.resp false (some "NATS not available in sync mode"))])
      else
        (clients, [])

/-- Request data of the admin:patients:create event: the caller-supplied
requestId and tenantId (the remaining form fields are spread into the new
patient object and never re-inspected). -/
structure PatientCreateData where
  requestId : String
  tenantId : String
deriving DecidableEq, Repr

/-- Handler of admin:patients:create (src/app.py, handle_create_patient).
In standalone mode it builds a mock patient (random ids passed as the pidGen
and patientIdGen oracles), emits the unicast response named
admin:patients:create:response:requestId, then broadcasts
admin:patients:created to the tenant room.  In production mode
publish_to_nats always returns None in sync mode, so the handler emits the
service-unavailable failure when nc is connected and the broker-offline
failure otherwise.  A missing client user raises KeyError into the except
clause, which emits the generic failure response. -/
def handle_create_patient (standalone : Bool) (nc : Option NatsConn) (clients : Clients)
    (cid : String) (data : PatientCreateData) (pidGen patientIdGen : String) :
    Clients × List Effect :=
  match alookup cid clients with
  | none => (clients, [adminErrorEffect])
  | some client =>
    if !client.authenticated || client.role != some "admin" then
      (clients, [adminErrorEffect])
    else
      match client.user with
      | none =>
        (clients, [Effect.emitCaller ("admin:patients:create:response:" ++ data.requestId)
          (Payload.patientCreateResp false none (some "Failed to process request"))])
      | some u =>
        if standalone then
          let new_patient : PatientRec :=
            { pid := pidGen
              patientId := patientIdGen
              tenantId := data.tenantId
              requestId := data.requestId
              createdBy := u.uid }
          (clients,
            [Effect.emitCaller ("admin:patients:create:response:" ++ data.requestId)
              (Payload.patientCreateResp true (some new_patient) none),
             Effect.emitRoom "admin:patients:created" ("admin:patients:" ++ data.tenantId)
              (Payload.patientCreated new_patient)])
        else
          if ncConnected nc then
            -- publish_to_nats returns None in sync mode, so "if not result" fires
            (clients, [Effect.emitCaller ("admin:patients:create:response:" ++ data.requestId)
              (Payload.patientCreateResp false none (some "Service temporarily unavailable"))])
          else
            (clients, [Effect.emitCaller ("admin:patients:create:response:" ++ data.requestId)
              (Payload.patientCreateResp false none (some "Message broker offline"))])

/-- Request data of the admin:encounters:create event (required fields only;
the patientName and providerName fields the handler derives from its inline
patient_map and provider_map are not inspected by any claim and are not
carried in the modelled payload). -/
structure EncounterCreateData where
  requestId : String
  tenantId : String
  patientId : String
  providerId : String
deriving DecidableEq, Repr

/-- Handler of admin:encounters:create (src/app.py, handle_create_encounter).
Builds the encounter (reading client["user"], so a missing user raises into
the except clause), broadcasts admin:encounters:created to the tenant room
first, then emits the unicast success response. -/
def handle_create_encounter (clients : Clients) (cid : String)
    (data : EncounterCreateData) (eidGen encounterIdGen : String) :
    Clients × List Effect :=
  match alookup cid clients with
  | none => (clients, [adminErrorEffect])
  | some client =>
    if !client.authenticated || client.role != some "admin" then
      (clients, [adminErrorEffect])
    else
      match client.user with
      | none =>
        (clients, [Effect.emitCaller ("admin:encounters:create:response:" ++ data.requestId)
          (Payload.encounterCreateResp false none (some "Failed to create encounter"))])
      | some u =>
        (clients,
          [Effect.emitRoom "admin:encounters:created" ("admin:encounters:" ++ data.tenantId)
            (Payload.encounterCreated eidGen encounterIdGen data.tenantId u.uid),
           Effect.emitCaller ("admin:encounters:create:response:" ++ data.requestId)
            (Payload.encounterCreateResp true (some eidGen) none)])

/-- Request data of the admin:insurance:create event (required fields only). -/
structure InsuranceCreateData where
  requestId : String
  tenantId : String
  patientId : String
  payerId : String
deriving DecidableEq, Repr

/-- Handler of admin:insurance:create (src/app.py, handle_create_insurance).
Broadcasts admin:insurance:created to the tenant room first, then emits the
unicast success response; a missing client user raises into the except
clause. -/
def handle_create_insurance (clients : Clients) (cid : String)
    (data : InsuranceCreateData) (iidGen : String) : Clients × List Effect :=
  match alookup cid clients with
  | none => (clients, [adminErrorEffect])
  | some client =>
    if !client.authenticated || client.role != some "admin" then
      (clients, [adminErrorEffect])
    else
      match client.user with
      | none =>
        (clients, [Effect.emitCaller ("admin:insurance:create:response:" ++ data.requestId)
          (Payload.insuranceCreateResp false none (some "Failed to create insurance"))])
      | some u =>
        (clients,
          [Effect.emitRoom "admin:insurance:created" ("admin:insurance:" ++ data.tenantId)
            (Payload.insuranceCreated iidGen data.tenantId u.uid),
           Effect.emitCaller ("admin:insurance:create:response:" ++ data.requestId)
            (Payload.insuranceCreateResp true (some iidGen) none)])

/-- Request data of the admin:claims:create event. -/
structure ClaimCreateData where
  requestId : String
  tenantId : String
deriving DecidableEq, Repr

/-- Handler of admin:claims:create (src/app.py, handle_create_claim).
Generates claim ids (oracles) and emits the unicast success response; no
broadcast and no state change. -/
def handle_create_claim (clients : Clients) (cid : String) (data : ClaimCreateData)
    (claimIdGen pcnGen claimMdIdGen : String) : Clients × List Effect :=
  match alookup cid clients with
  | none => (clients, [adminErrorEffect])
  | some client =>
    if !client.authenticated || client.role != some "admin" then
      (clients, [adminErrorEffect])
    else
      (clients, [Effect.emitCaller ("admin:claims:create:response:" ++ data.requestId)
        (Payload.claimCreateResp true (some claimMdIdGen) (some claimIdGen) (some pcnGen) none)])

/-- The inline tenant_map of handle_tenant_switch. -/
def tenant_map : List (String × TenantRec) :=
  [("tenant-001", { tid := "tenant-001", name := "Demo Clinic" }),
   ("tenant-002", { tid := "tenant-002", name := "Test Hospital" }),
   ("tenant-003", { tid := "tenant-003", name := "Sample Medical Center" })]

/-- Request data of the admin:tenant:switch event: tenantId is optional (a
missing or null tenantId clears the selection). -/
structure TenantSwitchData where
  requestId : String
  tenantId : Option String
deriving DecidableEq, Repr

/-- Handler of admin:tenant:switch (src/app.py, handle_tenant_switch).
On a known tenantId it stores the tenant into the client record and emits
the unicast success response; on an unknown tenantId it emits the
tenant-not-found failure without touching state; on a missing tenantId it
clears current_tenant and emits success with a null tenant.  The log lines
after the success emits read client["user"]["email"]; if the user is absent
the resulting KeyError reaches the except clause, which emits an additional
failure response. -/
def handle_tenant_switch (clients : Clients) (cid : String) (data : TenantSwitchData) :
    Clients × List Effect :=
  match alookup cid clients with
  | none => (clients, [adminErrorEffect])
  | some client =>
    if !client.authenticated || client.role != some "admin" then
      (clients, [adminErrorEffect])
    else
      let exceptEffect := Effect.emitCaller ("admin:tenant:switch:response:" ++ data.requestId)
        (Payload.switchResp false none (some "Failed to switch tenant"))
      match data.tenantId with
      | some tid =>
        match alookup tid tenant_map with
        | some tenant =>
          let clients' := aupdate cid { client with current_tenant := some (some tenant) } clients
          let respEffect := Effect.emitCaller ("admin:tenant:switch:response:" ++ data.requestId)
            (Payload.switchResp true (some (some tenant)) none)
          match client.user with
          | some _u => (clients', [respEffect])
          | none => (clients', [respEffect, exceptEffect])
        | none =>
          (clients, [Effect.emitCaller ("admin:tenant:switch:response:" ++ data.requestId)
            (Payload.switchResp false none (some "Tenant not found"))])
      | none =>
        let clients' := aupdate cid { client with current_tenant := some none } clients
        let respEffect := Effect.emitCaller ("admin:tenant:switch:response:" ++ data.requestId)
          (Payload.switchResp true (some none) none)
        match client.user with
        | some _u => (clients', [respEffect])
        | none => (clients', [respEffect, exceptEffect])

/-- The mock admin user object created by the fallback branch of
handle_login. -/
def fallbackAdminUser (email : String) : UserData :=
  { uid := "admin-001", email := email, name := "System Admin", role := "admin" }

/-- Handler of auth:login (src/app.py, handle_login).  When nc is connected
the sync-mode stub emits the service-not-available failure; otherwise the
development fallback accepts exactly the default admin credentials, updates
the connected_clients entry (a missing entry raises KeyError into the
except clause), joins the admin rooms and emits the success response; any
other credentials produce the invalid-credentials failure with no state
change.  The tokenHex oracle stands for os.urandom(16).hex(). -/
def handle_login (nc : Option NatsConn) (clients : Clients) (cid : String)
    (email password tokenHex : String) : Clients × List Effect :=
  if ncConnected nc then
    (clients, [Effect.emitCaller "auth:login:response"
      (Payload.loginResp false none none (some "Authentication service not available"))])
  else
    if email == "admin@htpi.com" && password == "changeme123" then
      let user_data := fallbackAdminUser email
      let token := "dev-token-" ++ tokenHex
      match alookup cid clients with
      | none =>
        (clients, [Effect.emitCaller "auth:login:response"
          (Payload.loginResp false none none (some "Authentication failed"))])
      | some client =>
        let client' := { client with
          authenticated := true
          user := some user_data
          token := some token
          role := some "admin" }
        (aupdate cid client' clients,
          [Effect.joinRoom "admin",
           Effect.joinRoom ("admin:" ++ user_data.uid),
           Effect.emitCaller "auth:login:response"
            (Payload.loginResp true (some user_data) (some token) none)])
    else
      (clients, [Effect.emitCaller "auth:login:response"
        (Payload.loginResp false none none (some "Invalid credentials"))])

/-- The status rewrite loop inside finalize_health_status (src/app.py):
every service whose status is still checking is marked down with the
no-response message; other services are untouched. -/
def markStillChecking (l : List (String × HCServiceStatus)) :
    List (String × HCServiceStatus) :=
  l.map (fun p =>
    if p.2.status == "checking" then
      (p.1, { p.2 with status := "down", message := "No response received" })
    else p)

/-- The finalize_health_status closure scheduled by handle_service_status_check
(src/app.py): if the client and its aggregation entry still exist, every
still-checking service is marked down in place, the final
services:status:update is emitted to the room named by the client sid (the
private room of the requesting connection), and the aggregation entry is
deleted.  The emitDelivers oracle is whether socketio.emit returns normally;
if it raises, the surrounding except clause swallows the exception after the
in-place marking but before the deletion, so the handler still returns
normally with no effect delivered. -/
def finalize_health_status (emitDelivers : Bool) (clients : Clients)
    (cid requestId : String) : Clients × List Effect :=
  match alookup cid clients with
  | none => (clients, [])
  | some client =>
    match alookup requestId client.health_checks with
    | none => (clients, [])
    | some entry =>
      let newStatus := markStillChecking entry.status
      let hc1 := aupdate requestId { entry with status := newStatus } client.health_checks
      if emitDelivers then
        (aupdate cid { client with health_checks := aremove requestId hc1 } clients,
          [Effect.emitRoom "services:status:update" cid
            (Payload.statusUpdate requestId newStatus)])
      else
        (aupdate cid { client with health_checks := hc1 } clients, [])

/-- The underlying nats-py client object as NATSService observes it
(src/services/nats_service.py): only its is_closed flag matters. -/
structure NCClient where
  is_closed : Bool
deriving DecidableEq, Repr

/-- The mutable fields of a NATSService instance that its request and
publish methods read: the _connected flag and the optional client. -/
structure NATSServiceState where
  connectedFlag : Bool
  nc : Option NCClient
deriving DecidableEq, Repr

/-- NATSService.is_connected: self._connected and self.nc and not
self.nc.is_closed, as a boolean. -/
def NATSService.is_connected (s : NATSServiceState) : Bool :=
  s.connectedFlag && (match s.nc with
    | none => false
    | some c => !c.is_closed)

/-- The parsed reply dict a NATSService.request call returns: the error
paths build literal dicts with a success flag and an error string, and a
real reply is whatever the responder sent. -/
structure NatsRespDict where
  success : Bool
  error : Option String
deriving DecidableEq, Repr

/-- What the bus does with one request once it is actually sent: a reply
arrives, the wait times out (nats.errors.TimeoutError), or the transport
raises some other exception. -/
inductive BusOutcome
  | ok (resp : NatsRespDict)
  | timeoutErr
  | raiseErr (msg : String)
deriving DecidableEq, Repr

/-- Exceptions a NATSService call can let escape: the
RuntimeError("Not connected to NATS") fail-fast, or an underlying transport
exception re-raised by publish. -/
inductive NatsCallErr
  | notConnected
  | busRaise (msg : String)
deriving DecidableEq, Repr

/-- NATSService.request (src/services/nats_service.py): when is_connected
is false it raises RuntimeError before touching the loop; otherwise the
request is sent and the try clause converts both a timeout and any other
exception into a failure dict, so the connected path always returns.  The
result carries the unchanged service state, the list of messages actually
handed to the bus, and the Python outcome. -/
def NATSService.request (s : NATSServiceState) (subject : String)
    (bus : BusOutcome) : NATSServiceState × List String × Except NatsCallErr NatsRespDict :=
  if !(NATSService.is_connected s) then
    (s, [], Except.error NatsCallErr.notConnected)
  else
    match bus with
    | BusOutcome.ok r => (s, [subject], Except.ok r)
    | BusOutcome.timeoutErr => (s, [subject], Except.ok { success := false, error := some "Request timeout" })
    | BusOutcome.raiseErr m => (s, [subject], Except.ok { success := false, error := some m })

/-- NATSService.publish (src/services/nats_service.py): when is_connected
is false it raises RuntimeError before touching the loop; otherwise it
publishes, and an exception from the transport is logged and re-raised. -/
def NATSService.publish (s : NATSServiceState) (subject : String)
    (bus : Except String Unit) : NATSServiceState × List String × Except NatsCallErr Unit :=
  if !(NATSService.is_connected s) then
    (s, [], Except.error NatsCallErr.notConnected)
  else
    match bus with
    | Except.ok _ => (s, [subject], Except.ok ())
    | Except.error m => (s, [], Except.error (NatsCallErr.busRaise m))

/-- A user object inside a POST /auth/session body: an arbitrary JSON
object of which set_session reads only the role key. -/
structure JUser where
  role : Option String
  rest : String
deriving DecidableEq, Repr

/-- The body of a POST to /auth/session: either a JSON object (whose
authenticated field is reduced to its truthiness) or a body on which
request.get_json() or the subsequent attribute accesses raise, landing in
the except clause. -/
inductive SessionBody
  | obj (authenticated : Bool) (user : Option JUser) (token : Option String)
  | malformed
deriving DecidableEq, Repr

/-- The Flask session cookie contents that set_session touches. -/
structure WebSession where
  user : Option JUser
  token : Option String
deriving DecidableEq, Repr

/-- An HTTP response of set_session: the success flag, optional error
string, and status code. -/
structure SessResponse where
  success : Bool
  error : Option String
  code : Nat
deriving DecidableEq, Repr

/-- The test data.get("user", dict()).get("role") == "admin" of set_session
(src/app.py): a missing user object yields a role of None, which is not
admin. -/
def isAdminUser : Option JUser → Bool
  | some u => u.role == some "admin"
  | none => false

/-- The POST /auth/session handler set_session (src/app.py): if the body is
a JSON object with truthy authenticated and user role admin, it stores the
user and token in the session and answers success; any other JSON object
clears the session and answers 401; a body the JSON parsing or attribute
access raises on lands in the except clause, which answers 500 leaving the
session untouched. -/
def set_session (sess : WebSession) (body : SessionBody) : WebSession × SessResponse :=
  match body with
  | SessionBody.malformed =>
    (sess, { success := false, error := some "Server error", code := 500 })
  | SessionBody.obj authenticated user token =>
    if authenticated && isAdminUser user then
      ({ user := user, token := token },
        { success := true, error := none, code := 200 })
    else
      ({ user := none, token := none },
        { success := false, error := some "Admin access required", code := 401 })

/-- One cached Organization row (src/models.py): the columns the
organizations controller reads and writes. -/
structure OrgRow where
  oid : String
  name : String
  otype : String
  status : String
deriving DecidableEq, Repr

/-- The data field of a successful admin.organizations.list reply. -/
structure OrgListData where
  organizations : List OrgRow
  total : Nat
deriving DecidableEq, Repr

/-- An admin.organizations.list reply dict as the controller reads it. -/
structure OrgListResp where
  success : Bool
  data : OrgListData
  error : Option String
deriving DecidableEq, Repr

/-- The per-organization caching step of the organizations index
controller: look the row up by id, create it if absent, overwrite name,
type and status, add and commit. -/
def upsertOrg (rows : List OrgRow) (o : OrgRow) : List OrgRow :=
  if rows.any (fun r => r.oid == o.oid) then
    rows.map (fun r => if r.oid == o.oid then
      { r with name := o.name, otype := o.otype, status := o.status } else r)
  else
    rows ++ [o]

/-- The slice Organization.query.paginate(page, per_page) renders. -/
def paginateRows (rows : List OrgRow) (page perPage : Nat) : List OrgRow :=
  (rows.drop ((page - 1) * perPage)).take perPage

/-- The organizations index controller (src/controllers/organizations.py):
on a successful bus reply it renders the fetched organizations and upserts
each of them into the local Organization cache; on a failure reply it
renders an empty list leaving the cache alone; when the bus request raises
(natsResult error), the except clause falls back to reading the cache.
Returns the new cache, the rendered organization list, and the total. -/
def organizations_index (cache : List OrgRow) (natsResult : Except String OrgListResp)
    (page perPage : Nat) : List OrgRow × List OrgRow × Nat :=
  match natsResult with
  | Except.ok resp =>
    if resp.success then
      (resp.data.organizations.foldl upsertOrg cache,
        resp.data.organizations, resp.data.total)
    else
      (cache, [], 0)
  | Except.error _ =>
    (cache, paginateRows cache page perPage, cache.length)

/-- Modelled from the spec: the Session Registry and Room Fan-out of
section 4.4.  The handlers in src/app.py delegate room membership and
delivery to the flask_socketio library (join_room, leave_room and emit with
a room argument), whose implementation is not part of this repository, so
the registry is modelled from the words of the spec: a set of
(room, connectionId) membership pairs mutated by join and leave, with
broadcast delivering one copy to every current member. -/
structure SessionRegistry where
  membership : List (String × String)
deriving DecidableEq, Repr

/-- Modelled from the spec: joinRoom adds the (room, connection) pair if it
is not already present. -/
def SessionRegistry.joinRoom (r : SessionRegistry) (room cid : String) : SessionRegistry :=
  if (room, cid) ∈ r.membership then r else { membership := (room, cid) :: r.membership }

/-- Modelled from the spec: leaveRoom removes the (room, connection) pair. -/
def SessionRegistry.leaveRoom (r : SessionRegistry) (room cid : String) : SessionRegistry :=
  { membership := r.membership.filter (fun p => !(p.1 == room && p.2 == cid)) }

/-- Modelled from the spec: the connections currently joined to a room. -/
def SessionRegistry.members (r : SessionRegistry) (room : String) : List String :=
  (r.membership.filter (fun p => p.1 == room)).map Prod.snd

/-- Modelled from the spec: broadcast(room, event) delivers one copy of the
event to every connection currently a member of the room, as the list of
(connectionId, event) deliveries. -/
def SessionRegistry.broadcast (r : SessionRegistry) (room event : String) :
    List (String × String) :=
  (SessionRegistry.members r room).map (fun cid => (cid, event))

/-- Modelled from the spec: how a PendingReply slot was resolved, by a
matching reply, the timeout sweeper, or an explicit cancel. -/
inductive ResolveOutcome
  | reply (value : String)
  | timeoutSweep
  | cancel
deriving DecidableEq, Repr

/-- Modelled from the spec: a PendingReply of the Correlation Table
(section 4.2), which is absent from src (src/app.py correlates ad hoc via
response channels and nats_service.py delegates to the client library), so
it is modelled from the words of the spec: a deadline and a single-write
result slot. -/
structure PendingReply where
  deadline : Nat
  resolvedWith : Option ResolveOutcome
deriving DecidableEq, Repr

/-- Modelled from the spec: the Correlation Table, a map from correlation
id to its PendingReply. -/
structure CorrTable where
  entries : List (String × PendingReply)
deriving DecidableEq, Repr

/-- Modelled from the spec: register(correlationId, deadline) inserts a
fresh unresolved PendingReply. -/
def CorrTable.register (t : CorrTable) (cid : String) (deadline : Nat) : CorrTable :=
  { entries := aupdate cid { deadline := deadline, resolvedWith := none } t.entries }

/-- Modelled from the spec: resolve(correlationId, value) writes the result
slot and returns true iff this call was the one that resolved it; on an
unknown or already-resolved id it is a no-op returning false. -/
def CorrTable.resolve (t : CorrTable) (cid : String) (v : ResolveOutcome) :
    CorrTable × Bool :=
  match alookup cid t.entries with
  | none => (t, false)
  | some p =>
    match p.resolvedWith with
    | some _ => (t, false)
    | none => ({ entries := aupdate cid { p with resolvedWith := some v } t.entries }, true)

/-- Modelled from the spec: cancel resolves the entry with the cancel
outcome (used on client disconnect). -/
def CorrTable.cancel (t : CorrTable) (cid : String) : CorrTable × Bool :=
  CorrTable.resolve t cid ResolveOutcome.cancel

/-- Modelled from the spec: sweepExpired(now) returns the ids of unresolved
entries whose deadline has passed, which the sweeper then resolves with the
timeout outcome. -/
def CorrTable.sweepExpired (t : CorrTable) (now : Nat) : List String :=
  (t.entries.filter (fun p => p.2.resolvedWith == none && p.2.deadline < now)).map Prod.fst

/-! ### Generic association-list lemmas -/

/-- Looking up the key just written returns the written value. -/
theorem alookup_aupdate_self {β : Type} (k : String) (v : β) (l : List (String × β)) :
    alookup k (aupdate k v l) = some v := by
  induction l with
  | nil => simp [aupdate, alookup]
  | cons hd tl ih =>
    rcases hd with ⟨k', v'⟩
    by_cases h : k = k'
    · simp [aupdate, alookup, h]
    · simp [aupdate, alookup, h, ih]

/-- A key absent from the key list looks up to none. -/
theorem alookup_eq_none_of_not_mem {β : Type} (k : String) (l : List (String × β))
    (h : k ∉ l.map Prod.fst) : alookup k l = none := by
  induction l with
  | nil => simp [alookup]
  | cons hd tl ih =>
    rcases hd with ⟨k', v'⟩
    simp only [List.map_cons, List.mem_cons] at h
    push_neg at h
    simp [alookup, h.1, ih h.2]

/-- The key list of an update: unchanged when the key was present, the key
appended when it was not. -/
theorem keys_aupdate {β : Type} (k : String) (v : β) (l : List (String × β)) :
    (aupdate k v l).map Prod.fst =
      if k ∈ l.map Prod.fst then l.map Prod.fst else l.map Prod.fst ++ [k] := by
  induction l with
  | nil => simp [aupdate]
  | cons hd tl ih =>
    rcases hd with ⟨k', v'⟩
    by_cases h : k = k'
    · simp [aupdate, h]
    · simp only [aupdate, if_neg h, List.map_cons, ih]
      by_cases hm : k ∈ tl.map Prod.fst
      · simp [hm, Ne.symm h]
      · simp [hm, Ne.symm h, h]

/-- Updating preserves distinctness of the keys. -/
theorem keys_aupdate_nodup {β : Type} (k : String) (v : β) (l : List (String × β))
    (h : (l.map Prod.fst).Nodup) : ((aupdate k v l).map Prod.fst).Nodup := by
  rw [keys_aupdate]
  by_cases hm : k ∈ l.map Prod.fst
  · simpa [hm] using h
  · simpa [hm] using List.Nodup.append h (List.nodup_singleton k) (by simpa using hm)

/-- After deleting a key from a list with distinct keys, the key is gone. -/
theorem alookup_aremove_self {β : Type} (k : String) (l : List (String × β))
    (h : (l.map Prod.fst).Nodup) : alookup k (aremove k l) = none := by
  induction l with
  | nil => simp [aremove, alookup]
  | cons hd tl ih =>
    rcases hd with ⟨k', v'⟩
    simp only [List.map_cons, List.nodup_cons] at h
    by_cases hk : k = k'
    · subst hk
      simpa [aremove] using alookup_eq_none_of_not_mem k tl h.1
    · simp [aremove, alookup, hk, ih h.2]

/-! ### Claim C1 -/

/-- C1: for every mutating Socket.IO event handler (create tenant, add user
to tenant, add ClaimMD account, create patient, create encounter, create
insurance, create claim, switch tenant), if the calling connection is not
registered in connected_clients, or its authenticated flag is not true, or
its role is not admin, then the handler returns with connected_clients
unchanged and with the single effect of emitting the error event to the
caller alone: no room broadcast, no room join, and no bus publish. -/
theorem c1_unauthorized_mutating_handlers_no_op (clients : Clients) (cid : String)
    (h : guardFails clients cid = true) :
    (∀ nc d, handle_create_tenant nc clients cid d = (clients, [adminErrorEffect])) ∧
    (∀ nc d, handle_add_user_to_tenant nc clients cid d = (clients, [adminErrorEffect])) ∧
    (∀ nc d, handle_add_claimmd nc clients cid d = (clients, [adminErrorEffect])) ∧
    (∀ st nc d g1 g2, handle_create_patient st nc clients cid d g1 g2 = (clients, [adminErrorEffect])) ∧
    (∀ d g1 g2, handle_create_encounter clients cid d g1 g2 = (clients, [adminErrorEffect])) ∧
    (∀ d g, handle_create_insurance clients cid d g = (clients, [adminErrorEffect])) ∧
    (∀ d g1 g2 g3, handle_create_claim clients cid d g1 g2 g3 = (clients, [adminErrorEffect])) ∧
    (∀ d, handle_tenant_switch clients cid d = (clients, [adminErrorEffect])) := by
  have hcases : alookup cid clients = none ∨
      ∃ c, alookup cid clients = some c ∧ (!c.authenticated || c.role != some "admin") = true := by
    unfold guardFails at h
    cases hc : alookup cid clients with
    | none => exact Or.inl rfl
    | some c => exact Or.inr ⟨c, rfl, by rwa [hc] at h⟩
  rcases hcases with hc | ⟨c, hc, hguard⟩
  · refine ⟨fun nc d => ?_, fun nc d => ?_, fun nc d => ?_, fun st nc d g1 g2 => ?_,
      fun d g1 g2 => ?_, fun d g => ?_, fun d g1 g2 g3 => ?_, fun d => ?_⟩ <;>
      simp [handle_create_tenant, handle_add_user_to_tenant, handle_add_claimmd,
        handle_create_patient, handle_create_encounter, handle_create_insurance,
        handle_create_claim, handle_tenant_switch, hc]
  · refine ⟨fun nc d => ?_, fun nc d => ?_, fun nc d => ?_, fun st nc d g1 g2 => ?_,
      fun d g1 g2 => ?_, fun d g => ?_, fun d g1 g2 g3 => ?_, fun d => ?_⟩ <;>
      simp [handle_create_tenant, handle_add_user_to_tenant, handle_add_claimmd,
        handle_create_patient, handle_create_encounter, handle_create_insurance,
        handle_create_claim, handle_tenant_switch, hc, hguard]

/-- An unauthenticated connection record as handle_connect creates it. -/
def freshClientRecord : ClientRecord := { sid := "c1", authenticated := false }

/-- C1 witness: a freshly connected, never-authenticated client calling
admin:tenants:create gets exactly the error emit and changes nothing. -/
theorem c1_witness :
    handle_create_tenant none [("c1", freshClientRecord)] "c1"
        { requestId := "r1", name := "Acme" } =
      ([("c1", freshClientRecord)], [adminErrorEffect]) :=
  (c1_unauthorized_mutating_handlers_no_op [("c1", freshClientRecord)] "c1" (by decide)).1
    none { requestId := "r1", name := "Acme" }

/-! ### Claim C2 -/

/-- A fully authenticated admin client record as handle_login leaves it. -/
def sampleAdminRecord : ClientRecord :=
  { sid := "c1"
    authenticated := true
    user := some (fallbackAdminUser "admin@htpi.com")
    token := some "dev-token-ab"
    role := some "admin" }

/-- C2: evaluation of the code at the failing inputs.  The claim says every
request/reply handler answers the caller under every connectivity state,
including a disconnected bus; but handle_create_tenant,
handle_add_user_to_tenant and handle_add_claimmd guard their whole body with
if nc and nc.is_connected and have no else branch, so an authenticated admin
calling them while NATS is absent or disconnected receives no event at all:
the effect list is empty. -/
theorem c2_disconnected_mutating_handlers_emit_nothing :
    (handle_create_tenant none [("c1", sampleAdminRecord)] "c1"
      { requestId := "r1", name := "Acme" }).2 = [] ∧
    (handle_create_tenant (some { is_connected := false }) [("c1", sampleAdminRecord)] "c1"
      { requestId := "r1", name := "Acme" }).2 = [] ∧
    (handle_add_user_to_tenant none [("c1", sampleAdminRecord)] "c1"
      { requestId := "r2", tenantId := "tenant-001" }).2 = [] ∧
    (handle_add_claimmd none [("c1", sampleAdminRecord)] "c1"
      { requestId := "r3", tenantId := "tenant-001" }).2 = [] := by
  refine ⟨?_, ?_, ?_, ?_⟩ <;> decide

/-! ### Claim C3 -/

/-- C3 counterexample: with the bus connected, even the valid development
credentials admin@htpi.com / changeme123 produce auth:login:response with
success false (the sync-mode stub answers service-not-available before any
credential check), so the claim that valid credentials always yield success
true is false as stated. -/
theorem c3_counterexample_connected_valid_credentials :
    handle_login (some { is_connected := true }) [("c1", freshClientRecord)] "c1"
        "admin@htpi.com" "changeme123" "ab" =
      ([("c1", freshClientRecord)],
       [Effect.emitCaller "auth:login:response"
         (Payload.loginResp false none none (some "Authentication service not available"))]) := by
  decide

/-- C3 (amended): when the bus is not connected, so the fallback
authentication path runs: a registered connection supplying the valid
development credentials receives auth:login:response with success true and
the non-empty mock admin user, and its connected_clients entry is marked
authenticated; any other credentials receive success false and leave the
connected_clients map and room memberships unchanged (no join effects).
When the bus is connected the handler always answers success false without
mutating any state. -/
theorem c3_login_response (nc : Option NatsConn) (clients : Clients) (cid : String)
    (email password tokenHex : String) :
    (ncConnected nc = false →
      (∀ client, alookup cid clients = some client →
        email = "admin@htpi.com" → password = "changeme123" →
        handle_login nc clients cid email password tokenHex =
          (aupdate cid { client with
              authenticated := true
              user := some (fallbackAdminUser email)
              token := some ("dev-token-" ++ tokenHex)
              role := some "admin" } clients,
           [Effect.joinRoom "admin",
            Effect.joinRoom "admin:admin-001",
            Effect.emitCaller "auth:login:response"
              (Payload.loginResp true (some (fallbackAdminUser email))
                (some ("dev-token-" ++ tokenHex)) none)])) ∧
      (¬(email = "admin@htpi.com" ∧ password = "changeme123") →
        handle_login nc clients cid email password tokenHex =
          (clients, [Effect.emitCaller "auth:login:response"
            (Payload.loginResp false none none (some "Invalid credentials"))]))) ∧
    (ncConnected nc = true →
      handle_login nc clients cid email password tokenHex =
        (clients, [Effect.emitCaller "auth:login:response"
          (Payload.loginResp false none none (some "Authentication service not available"))])) := by
  constructor
  · intro hnc
    constructor
    · intro client hcl he hp
      subst he; subst hp
      simp [handle_login, hnc, hcl, fallbackAdminUser]
    · intro hbad
      cases hb : (email == "admin@htpi.com" && password == "changeme123") with
      | false => simp [handle_login, hnc, hb]
      | true =>
        exfalso
        apply hbad
        have hb' := hb
        rw [Bool.and_eq_true] at hb'
        exact ⟨by simpa using hb'.1, by simpa using hb'.2⟩
  · intro hnc
    simp [handle_login, hnc]

/-- C3 witness: with no bus, the valid development credentials authenticate
a fresh connection and the success response carries the user object. -/
theorem c3_witness :
    handle_login none [("c1", freshClientRecord)] "c1" "admin@htpi.com" "changeme123" "ab" =
      (aupdate "c1" { freshClientRecord with
          authenticated := true
          user := some (fallbackAdminUser "admin@htpi.com")
          token := some "dev-token-ab"
          role := some "admin" } [("c1", freshClientRecord)],
       [Effect.joinRoom "admin",
        Effect.joinRoom "admin:admin-001",
        Effect.emitCaller "auth:login:response"
          (Payload.loginResp true (some (fallbackAdminUser "admin@htpi.com"))
            (some "dev-token-ab") none)]) :=
  ((c3_login_response none [("c1", freshClientRecord)] "c1" "admin@htpi.com" "changeme123"
      "ab").1 rfl).1 freshClientRecord (by decide) rfl rfl

/-! ### Claim C4 -/

/-- C4: when the bus connection is not live, NATSService.request and
NATSService.publish fail fast with the RuntimeError("Not connected to NATS")
broker-unavailable error, hand nothing to the bus and leave the service
state unchanged; with a live connection the same calls never raise that
error (request always returns a dict, publish either succeeds or re-raises
the underlying transport error). -/
theorem c4_bus_unavailable_fail_fast (s : NATSServiceState) (subject : String) :
    (NATSService.is_connected s = false →
      (∀ bus, NATSService.request s subject bus = (s, [], Except.error NatsCallErr.notConnected)) ∧
      (∀ bus, NATSService.publish s subject bus = (s, [], Except.error NatsCallErr.notConnected))) ∧
    (NATSService.is_connected s = true →
      (∀ bus, (NATSService.request s subject bus).2.2 ≠ Except.error NatsCallErr.notConnected) ∧
      (∀ bus, (NATSService.publish s subject bus).2.2 ≠ Except.error NatsCallErr.notConnected)) := by
  constructor
  · intro h
    constructor
    · intro bus; simp [NATSService.request, h]
    · intro bus; simp [NATSService.publish, h]
  · intro h
    constructor
    · intro bus
      cases bus <;> simp [NATSService.request, h]
    · intro bus
      cases bus <;> simp [NATSService.publish, h]

/-- C4 witness: a service whose _connected flag was never set fails fast on
request, sending nothing and keeping its state. -/
theorem c4_witness :
    NATSService.request { connectedFlag := false, nc := none } "htpi.tenant.create"
        (BusOutcome.ok { success := true, error := none }) =
      ({ connectedFlag := false, nc := none }, [], Except.error NatsCallErr.notConnected) :=
  ((c4_bus_unavailable_fail_fast { connectedFlag := false, nc := none }
      "htpi.tenant.create").1 (by decide)).1 (BusOutcome.ok { success := true, error := none })

/-! ### Claim C5 -/

/-- Counting deliveries of a broadcast: a connection receives exactly one
copy when the membership pair is present in a duplicate-free membership
list, and none otherwise. -/
theorem broadcast_count_aux (l : List (String × String)) (hl : l.Nodup)
    (room cid event : String) :
    (((l.filter (fun p => p.1 == room)).map Prod.snd).map (fun c => (c, event))).count
        (cid, event) = if (room, cid) ∈ l then 1 else 0 := by
  induction l with
  | nil => simp
  | cons hd tl ih =>
    rcases hd with ⟨r', c'⟩
    rw [List.nodup_cons] at hl
    have ihtl := ih hl.2
    rw [List.map_map] at ihtl
    by_cases hr : r' = room
    · by_cases hc : c' = cid
      · have hni : ((room, cid) : String × String) ∉ tl := by
          rw [← hr, ← hc]; exact hl.1
        have h0 : ((tl.filter (fun p => p.1 == room)).map
            ((fun c => (c, event)) ∘ Prod.snd)).count (cid, event) = 0 := by
          rw [ihtl, if_neg hni]
        simp [hr, hc, List.filter_cons, List.count_cons, h0, hni]
      · have hc2 : cid ≠ c' := fun q => hc q.symm
        simp [hr, List.filter_cons, List.count_cons, ihtl, hc, hc2, Prod.mk.injEq]
    · have hr2 : room ≠ r' := fun q => hr q.symm
      simp [List.filter_cons, hr, hr2, ihtl, Prod.mk.injEq]

/-- C5: for every room and broadcast, every connection joined to the room at
call time receives exactly one copy of the event, a connection not joined
(including one joined only to a different room) receives none, and a
connection that left the room before the call receives none.  The
membership list is duplicate-free, as join and leave keep it. -/
theorem c5_broadcast_exactly_once (r : SessionRegistry) (h : r.membership.Nodup)
    (room cid event : String) :
    ((SessionRegistry.broadcast r room event).count (cid, event) =
      if (room, cid) ∈ r.membership then 1 else 0) ∧
    ((SessionRegistry.broadcast (SessionRegistry.leaveRoom r room cid) room event).count
      (cid, event) = 0) := by
  constructor
  · exact broadcast_count_aux r.membership h room cid event
  · have hnodup : (r.membership.filter (fun p => !(p.1 == room && p.2 == cid))).Nodup :=
      List.Nodup.filter _ h
    have hnotin : ((room, cid) : String × String) ∉
        r.membership.filter (fun p => !(p.1 == room && p.2 == cid)) := by
      intro hmem
      have := List.of_mem_filter hmem
      simp at this
    have := broadcast_count_aux
      (r.membership.filter (fun p => !(p.1 == room && p.2 == cid))) hnodup room cid event
    rw [if_neg hnotin] at this
    exact this

/-- C5 witness: three connections joined to the admin:tenants room and one
joined only to another tenant room; the joined connection a receives the
broadcast exactly once. -/
theorem c5_witness :
    (([("admin:tenants", "a"), ("admin:tenants", "b"), ("admin:tenants", "c"),
        ("admin:patients:t1", "d")] : List (String × String)).Nodup) ∧
    ((SessionRegistry.broadcast
        { membership := [("admin:tenants", "a"), ("admin:tenants", "b"),
          ("admin:tenants", "c"), ("admin:patients:t1", "d")] }
        "admin:tenants" "admin:tenants:created").count ("a", "admin:tenants:created") =
      if (("admin:tenants", "a") : String × String) ∈
          [("admin:tenants", "a"), ("admin:tenants", "b"), ("admin:tenants", "c"),
            ("admin:patients:t1", "d")] then 1 else 0) :=
  ⟨by decide,
    (c5_broadcast_exactly_once
      { membership := [("admin:tenants", "a"), ("admin:tenants", "b"),
        ("admin:tenants", "c"), ("admin:patients:t1", "d")] }
      (by decide) "admin:tenants" "a" "admin:tenants:created").1⟩

/-! ### Claim C6 -/

/-- C6: resolve on an unknown id is a no-op returning false; resolve on an
already-resolved id is a no-op returning false; and once a resolve call has
returned true for an id (whichever of reply, timeout sweep or cancel it
carried), every later resolution attempt for that id returns false and
leaves the table unchanged, so each PendingReply is resolved at most once
and a second attempt never errors. -/
theorem c6_resolve_at_most_once (t : CorrTable) (cid : String) (v w : ResolveOutcome) :
    (alookup cid t.entries = none → CorrTable.resolve t cid v = (t, false)) ∧
    (∀ p o, alookup cid t.entries = some p → p.resolvedWith = some o →
      CorrTable.resolve t cid v = (t, false)) ∧
    (∀ t', CorrTable.resolve t cid v = (t', true) →
      CorrTable.resolve t' cid w = (t', false)) := by
  refine ⟨?_, ?_, ?_⟩
  · intro h
    simp [CorrTable.resolve, h]
  · intro p o hp ho
    simp [CorrTable.resolve, hp, ho]
  · intro t' h
    unfold CorrTable.resolve at h
    split at h
    · exact absurd (congrArg Prod.snd h) (by simp)
    · split at h
      · exact absurd (congrArg Prod.snd h) (by simp)
      · have ht' := congrArg Prod.fst h
        simp only at ht'
        rw [← ht']
        simp [CorrTable.resolve, alookup_aupdate_self]

/-- C6 witness: a table whose only entry is already resolved by a reply; a
second resolution attempt by the timeout sweeper returns false and changes
nothing. -/
theorem c6_witness :
    CorrTable.resolve
        { entries := [("id1", { deadline := 10, resolvedWith := some (ResolveOutcome.reply "x") })] }
        "id1" ResolveOutcome.timeoutSweep =
      ({ entries := [("id1", { deadline := 10, resolvedWith := some (ResolveOutcome.reply "x") })] },
        false) :=
  (c6_resolve_at_most_once
      { entries := [("id1", { deadline := 10, resolvedWith := none })] }
      "id1" (ResolveOutcome.reply "x") ResolveOutcome.timeoutSweep).2.2
    { entries := [("id1", { deadline := 10, resolvedWith := some (ResolveOutcome.reply "x") })] }
    (by decide)

/-! ### Claim C7 -/

/-- A client record with its health_checks map replaced (used to state the
results of finalize_health_status). -/
def withHealthChecks (c : ClientRecord) (hcs : List (String × HealthCheckEntry)) :
    ClientRecord :=
  { c with health_checks := hcs }

/-- An aggregation entry after the finalization marking. -/
def markedEntry (e : HealthCheckEntry) : HealthCheckEntry :=
  { e with status := markStillChecking e.status }

/-- C7: for an in-flight health-check aggregation (the requesting client is
still connected and the entry is still in its health_checks map), the
finalization fired after the 5-second grace period marks every
still-checking service down (and touches no other status), emits one final
services:status:update to the room named by the requesting sid (the private
room of that connection only), and removes the aggregation entry from the
health_checks map; when the emit raises instead of delivering, the
surrounding except clause swallows the error, so the sweep callback still
returns normally, with no effect delivered. -/
theorem c7_finalize_health_status_grace (clients : Clients) (cid requestId : String)
    (client : ClientRecord) (entry : HealthCheckEntry)
    (hc : alookup cid clients = some client)
    (he : alookup requestId client.health_checks = some entry)
    (hk : (client.health_checks.map Prod.fst).Nodup) :
    (finalize_health_status true clients cid requestId =
      (aupdate cid
        (withHealthChecks client
          (aremove requestId (aupdate requestId (markedEntry entry) client.health_checks)))
        clients,
       [Effect.emitRoom "services:status:update" cid
         (Payload.statusUpdate requestId (markStillChecking entry.status))])) ∧
    (∀ sid st, (sid, st) ∈ markStillChecking entry.status → st.status ≠ "checking") ∧
    (∀ sid st, (sid, st) ∈ entry.status → st.status = "checking" →
      (sid, { st with status := "down", message := "No response received" }) ∈
        markStillChecking entry.status) ∧
    (alookup requestId
      (aremove requestId (aupdate requestId (markedEntry entry) client.health_checks)) =
      none) ∧
    (finalize_health_status false clients cid requestId =
      (aupdate cid
        (withHealthChecks client (aupdate requestId (markedEntry entry) client.health_checks))
        clients, [])) := by
  refine ⟨?_, ?_, ?_, ?_, ?_⟩
  · simp [finalize_health_status, hc, he, withHealthChecks, markedEntry]
  · intro sid st hmem
    unfold markStillChecking at hmem
    rw [List.mem_map] at hmem
    obtain ⟨p, hp, heq⟩ := hmem
    cases hcheck : (p.2.status == "checking") with
    | true =>
      simp [hcheck] at heq
      rw [← heq.2]
      simp
    | false =>
      simp [hcheck] at heq
      have h2 : p.2 = st := by rw [heq]
      intro hqq
      rw [h2, hqq] at hcheck
      simp at hcheck
  · intro sid st hmem hst
    unfold markStillChecking
    rw [List.mem_map]
    exact ⟨(sid, st), hmem, by simp [hst]⟩
  · exact alookup_aremove_self requestId _ (keys_aupdate_nodup requestId _ _ hk)
  · simp [finalize_health_status, hc, he, withHealthChecks, markedEntry]

/-- An aggregation entry with one reported and one still-checking service. -/
def sampleHealthEntry : HealthCheckEntry :=
  { status := [("htpi-auth-service", { hid := "htpi-auth-service", status := "healthy", message := "ok" }),
      ("htpi-tenant-service", { hid := "htpi-tenant-service", status := "checking", message := "Health check sent" })]
    pending := 1 }

/-- A connected admin client carrying the sample aggregation entry. -/
def clientWithHealthCheck : ClientRecord :=
  { sid := "c1"
    authenticated := true
    user := some (fallbackAdminUser "admin@htpi.com")
    token := some "dev-token-ab"
    role := some "admin"
    health_checks := [("hc-1", sampleHealthEntry)] }

/-- C7 witness: finalizing the sample aggregation marks the still-checking
tenant service down, emits the final update to the requesting sid only and
removes the entry. -/
theorem c7_witness :
    finalize_health_status true [("c1", clientWithHealthCheck)] "c1" "hc-1" =
      (aupdate "c1"
        (withHealthChecks clientWithHealthCheck
          (aremove "hc-1" (aupdate "hc-1" (markedEntry sampleHealthEntry)
            clientWithHealthCheck.health_checks)))
        [("c1", clientWithHealthCheck)],
       [Effect.emitRoom "services:status:update" "c1"
         (Payload.statusUpdate "hc-1" (markStillChecking sampleHealthEntry.status))]) :=
  (c7_finalize_health_status_grace [("c1", clientWithHealthCheck)] "c1" "hc-1"
    clientWithHealthCheck sampleHealthEntry (by decide) rfl (by decide)).1

/-! ### Claim C8 -/

/-- C8: for the admin:patients:create and admin:tenant:switch events, an
authenticated admin caller supplying a requestId receives the eventual
response through a unicast emit whose event name is the action name with
the exact requestId appended (admin:patients:create:response:rid,
admin:tenant:switch:response:rid), and this unicast response is a different
effect from the room broadcast: the broadcast is an emitRoom with the
distinct event name admin:patients:created, which no requestId can make
collide with the response name. -/
theorem c8_requestId_unicast_response (nc : Option NatsConn) (clients : Clients)
    (cid rid tid g1 g2 : String) (client : ClientRecord) (u : UserData)
    (hc : alookup cid clients = some client)
    (ha : client.authenticated = true)
    (hr : client.role = some "admin")
    (hu : client.user = some u) :
    ((handle_create_patient true nc clients cid { requestId := rid, tenantId := tid } g1 g2).2 =
      [Effect.emitCaller ("admin:patients:create:response:" ++ rid)
        (Payload.patientCreateResp true
          (some { pid := g1, patientId := g2, tenantId := tid, requestId := rid, createdBy := u.uid }) none),
       Effect.emitRoom "admin:patients:created" ("admin:patients:" ++ tid)
        (Payload.patientCreated
          { pid := g1, patientId := g2, tenantId := tid, requestId := rid, createdBy := u.uid })]) ∧
    ("admin:patients:create:response:" ++ rid ≠ "admin:patients:created") ∧
    ((handle_tenant_switch clients cid { requestId := rid, tenantId := some "tenant-001" }).2 =
      [Effect.emitCaller ("admin:tenant:switch:response:" ++ rid)
        (Payload.switchResp true (some (some { tid := "tenant-001", name := "Demo Clinic" })) none)]) := by
  refine ⟨?_, ?_, ?_⟩
  · simp [handle_create_patient, hc, ha, hr, hu]
  · intro h
    have h' := congrArg String.length h
    rw [String.length_append] at h'
    have e1 : ("admin:patients:create:response:" : String).length = 31 := by decide
    have e2 : ("admin:patients:created" : String).length = 22 := by decide
    rw [e1, e2] at h'
    omega
  · simp [handle_tenant_switch, hc, ha, hr, hu, tenant_map, alookup]

/-- The mock patient the C8 witness creates. -/
def witnessPatient : PatientRec :=
  { pid := "pat-1234"
    patientId := "P123456"
    tenantId := "tenant-001"
    requestId := "r9"
    createdBy := "admin-001" }

/-- C8 witness: the concrete admin connection creating a patient with
requestId r9 gets the unicast response event embedding r9 and the room
gets the separate created broadcast. -/
theorem c8_witness :
    (handle_create_patient true none [("c1", sampleAdminRecord)] "c1"
        { requestId := "r9", tenantId := "tenant-001" } "pat-1234" "P123456").2 =
      [Effect.emitCaller "admin:patients:create:response:r9"
        (Payload.patientCreateResp true (some witnessPatient) none),
       Effect.emitRoom "admin:patients:created" "admin:patients:tenant-001"
        (Payload.patientCreated witnessPatient)] :=
  (c8_requestId_unicast_response none [("c1", sampleAdminRecord)] "c1" "r9" "tenant-001"
    "pat-1234" "P123456" sampleAdminRecord (fallbackAdminUser "admin@htpi.com")
    (by decide) rfl rfl rfl).1

/-! ### Claim C9 -/

/-- An organization row as the admin service would return it. -/
def orgAcme : OrgRow :=
  { oid := "org-1", name := "Acme Clinic", otype := "clinic", status := "active" }

/-- C9 counterexample: the claim says the core never writes the local
Organization cache while listing organizations, but on a successful bus
reply the controller upserts every fetched row (db.session.add and commit in
src/controllers/organizations.py), so listing against an empty cache leaves
the fetched row in the cache. -/
theorem c9_counterexample_cache_written_on_success :
    ((organizations_index [] (Except.ok
        { success := true, data := { organizations := [orgAcme], total := 1 }, error := none })
        1 20).1 = [orgAcme]) ∧
    ([orgAcme] ≠ ([] : List OrgRow)) := by
  exact ⟨rfl, by decide⟩

/-- C9 (amended): the local Organization cache is read-through in the sense
that the fallback path (a bus exception) only reads it, rendering the
paginated cached rows and changing nothing, and a failure reply also leaves
it unchanged; but on a successful bus reply the core itself writes the
cache, upserting exactly the fetched rows. -/
theorem c9_cache_read_through (cache : List OrgRow) (page perPage : Nat) :
    (∀ m, organizations_index cache (Except.error m) page perPage =
      (cache, paginateRows cache page perPage, cache.length)) ∧
    (∀ resp, resp.success = false →
      organizations_index cache (Except.ok resp) page perPage = (cache, [], 0)) ∧
    (∀ resp, resp.success = true →
      organizations_index cache (Except.ok resp) page perPage =
        (resp.data.organizations.foldl upsertOrg cache,
          resp.data.organizations, resp.data.total)) := by
  refine ⟨?_, ?_, ?_⟩
  · intro m; simp [organizations_index]
  · intro resp h; simp [organizations_index, h]
  · intro resp h; simp [organizations_index, h]

/-- C9 witness: a failure reply leaves the singleton cache untouched and
renders nothing. -/
theorem c9_witness :
    organizations_index [orgAcme] (Except.ok
        { success := false, data := { organizations := [], total := 0 }, error := some "boom" })
        1 20 = ([orgAcme], [], 0) :=
  (c9_cache_read_through [orgAcme] 1 20).2.1
    { success := false, data := { organizations := [], total := 0 }, error := some "boom" } rfl

/-! ### Claim C10 -/

/-- A user object with the admin role, as the gateway posts it. -/
def adminJUser : JUser := { role := some "admin", rest := "admin@htpi.com" }

/-- The invariant the claim derives: whenever the web session carries a
user, that user has role admin. -/
def sessionAdminOnly (s : WebSession) : Prop :=
  ∀ u, s.user = some u → u.role = some "admin"

/-- C10 counterexample: the claim says any body other than an
authenticated-admin JSON object clears the session and answers 401, but a
body the JSON parsing raises on lands in the except clause, which answers
500 and leaves the existing session in place. -/
theorem c10_counterexample_malformed_body :
    set_session { user := some adminJUser, token := some "t" } SessionBody.malformed =
      ({ user := some adminJUser, token := some "t" },
       { success := false, error := some "Server error", code := 500 }) := rfl

/-- C10 (amended): for a POST to /auth/session with a JSON object body, the
session user is set (to the posted user, with success true) iff the body has
a truthy authenticated field and its user object's role is admin, and any
other JSON object body clears the session answering 401; a malformed body
instead answers 500 with success false and leaves the session unchanged.
Consequently set_session preserves the invariant that the session user,
whenever present, has role admin. -/
theorem c10_set_session_amended (sess : WebSession) (body : SessionBody) :
    (∀ auth user token, body = SessionBody.obj auth user token →
      ((auth = true ∧ isAdminUser user = true) →
        set_session sess body =
          ({ user := user, token := token },
           { success := true, error := none, code := 200 })) ∧
      (¬(auth = true ∧ isAdminUser user = true) →
        set_session sess body =
          ({ user := none, token := none },
           { success := false, error := some "Admin access required", code := 401 }))) ∧
    (body = SessionBody.malformed →
      set_session sess body =
        (sess, { success := false, error := some "Server error", code := 500 })) ∧
    (sessionAdminOnly sess → sessionAdminOnly (set_session sess body).1) := by
  refine ⟨?_, ?_, ?_⟩
  · intro auth user token hbody
    subst hbody
    constructor
    · rintro ⟨ha, hu⟩
      subst ha
      simp [set_session, hu]
    · intro hno
      cases ha : auth with
      | false => simp [set_session, ha]
      | true =>
        cases hu : isAdminUser user with
        | false => simp [set_session, ha, hu]
        | true => exact absurd ⟨ha, hu⟩ hno
  · intro hbody
    subst hbody
    rfl
  · intro hinv
    cases body with
    | malformed => exact hinv
    | obj auth user token =>
      cases hcond : (auth && isAdminUser user) with
      | false =>
        intro u hu
        simp [set_session, hcond] at hu
      | true =>
        intro u hu
        simp only [set_session, hcond, if_pos] at hu
        rw [Bool.and_eq_true] at hcond
        have : isAdminUser user = true := hcond.2
        rw [hu] at this
        simpa [isAdminUser] using this

/-- C10 witness: posting an authenticated admin body installs the admin
user into the session with success. -/
theorem c10_witness :
    set_session { user := none, token := none }
        (SessionBody.obj true (some adminJUser) (some "tok")) =
      ({ user := some adminJUser, token := some "tok" },
       { success := true, error := none, code := 200 }) :=
  ((c10_set_session_amended { user := none, token := none }
      (SessionBody.obj true (some adminJUser) (some "tok"))).1 true (some adminJUser)
      (some "tok") rfl).1 ⟨rfl, rfl⟩

end HtpiAdmin
